import Mathlib

/-!
Shallow embedding of the Anomalyse backend (src/backend/main.py, models.py,
config.py): the fraud-scoring pipeline behind the /predict and /upload
endpoints, the require_token dependency, and the history-window assembly.

Conventions of the embedding:
- Timestamps are totally ordered values, modelled as Int.
- Probabilities and amounts are rationals (the claims only involve exact
  arithmetic such as 1 - p and p * 100).
- Strings that are only stored or compared are Lean String; the strings the
  code computes on character by character (the Authorization header, the
  uploaded filename) are List Char, with helpers mirroring the Python string
  operations used at those call sites.
- Exceptions raised by collaborators (joblib.load, pandas, the model) are
  modelled as Option results; each HTTPException branch of a handler becomes
  a constructor of an outcome type, and a separate function gives the HTTP
  status code attached to each branch.
-/

namespace Anomalyse

/-- A persisted transaction row: the columns of models.Transaction that the
scoring pipeline reads or writes (flag columns are never touched by it). -/
structure StoredTxn where
  id : String
  timestamp : Int
  amount : ℚ
  user_id : String
  city : String
  category : String
  risk_score : Int
  status : String
  is_training_data : Bool
deriving DecidableEq, Repr

/-- One row of the DataFrame handed to preprocess_data: the dict built in
predict_fraud (keys Timestamp, UserID, Amount, City, Category, Fraud_Type)
and likewise one row of the upload DataFrame after the Fraud_Type default. -/
structure ModelRow where
  Timestamp : Int
  UserID : String
  Amount : ℚ
  City : String
  Category : String
  Fraud_Type : Int
deriving DecidableEq, Repr

/-- The /predict request body, PredictionRequest in main.py.  The code parses
the timestamp string with pd.to_datetime inside a try/except; the parse
result is modelled directly: some ts when the string parses, none when the
parser raises. -/
structure PredictionRequest where
  timestamp : Option Int
  amount : ℚ
  user_id : String
  city : String
  category : String
deriving DecidableEq, Repr

/-- The /predict response body, PredictionResponse in main.py. -/
structure PredictionResponse where
  is_fraud : Bool
  risk_score : ℚ
  status : String
deriving DecidableEq, Repr

/-- Python list(classes).index(0) as used in both handlers: first index of
label 0.  Meaningful only under 0 ∈ classes, exactly as in the code. -/
def normal_index (classes : List Int) : Nat :=
  List.indexOf 0 classes

/-- The fraud-probability computation of predict_fraud (main.py lines
280-285): if 0 in classes, 1 - probs[normal_idx], else the defensive 1.0. -/
def fraud_prob (classes : List Int) (probs : List ℚ) : ℚ :=
  if (0 : Int) ∈ classes then 1 - probs.getD (normal_index classes) 0 else 1

/-- risk_score = fraud_prob * 100 (main.py line 287 and line 351). -/
def risk_score (classes : List Int) (probs : List ℚ) : ℚ :=
  fraud_prob classes probs * 100

/-- status = "Suspicious" if pred != 0 else "Safe" (main.py lines 288-289
and line 352). -/
def txn_status (label : Int) : String :=
  if label ≠ 0 then "Suspicious" else "Safe"

/-- The sentinel index of upload_csv line 340:
normal_idx = list(classes).index(0) if 0 in classes else -1. -/
def upload_normal_idx (classes : List Int) : Int :=
  if (0 : Int) ∈ classes then (normal_index classes : Int) else -1

/-- Per-row fraud probability of upload_csv lines 346-349: 1 - probs[i][normal_idx]
when the sentinel is not -1, else the defensive 1.0. -/
def upload_fraud_prob (classes : List Int) (probs : List ℚ) : ℚ :=
  if upload_normal_idx classes ≠ -1 then
    1 - probs.getD (upload_normal_idx classes).toNat 0
  else 1

/-- Python int() on a nonnegative-or-negative rational: truncation toward
zero, used for the stored risk_score=int(risk) at upload_csv line 361. -/
def py_int (q : ℚ) : Int :=
  q.num.tdiv q.den

/-- Insert a row into a list kept in descending timestamp order. -/
def insertDesc (r : StoredTxn) : List StoredTxn → List StoredTxn
  | [] => [r]
  | x :: xs => if x.timestamp < r.timestamp then r :: x :: xs else x :: insertDesc r xs

/-- Sort rows by timestamp, newest first: the embedding of the query clause
order_by(TransactionModel.timestamp.desc()) (main.py line 237).  Ties are
broken arbitrarily, as in the database. -/
def sortDesc : List StoredTxn → List StoredTxn
  | [] => []
  | x :: xs => insertDesc x (sortDesc xs)

/-- The history query of predict_fraud (main.py lines 233-239): this user's
rows strictly before the new timestamp, newest first, capped at 50. -/
def history_rows (store : List StoredTxn) (uid : String) (before : Int) : List StoredTxn :=
  (sortDesc (store.filter fun r => r.user_id == uid && decide (r.timestamp < before))).take 50

/-- Dict built from one history row (main.py lines 244-251): Fraud_Type 0. -/
def toModelRow (r : StoredTxn) : ModelRow :=
  ⟨r.timestamp, r.user_id, r.amount, r.city, r.category, 0⟩

/-- The current_data dict (main.py lines 254-261). -/
def currentRow (ts : Int) (txn : PredictionRequest) : ModelRow :=
  ⟨ts, txn.user_id, txn.amount, txn.city, txn.category, 0⟩

/-- The DataFrame handed to preprocess_data by predict_fraud (main.py lines
242-264): the history rows in the order the query returned them, then the
current transaction appended last. -/
def assembled_window (store : List StoredTxn) (txn : PredictionRequest) (ts : Int) :
    List ModelRow :=
  (history_rows store txn.user_id ts).map toModelRow ++ [currentRow ts txn]

/-- Drop every occurrence of the pattern from the string, left to right and
non-overlapping: Python str.replace(pat, "") as called at main.py line 100.
Structural recursion on a fuel bounded by the string length. -/
def removeOccsAux (pat : List Char) : Nat → List Char → List Char
  | _, [] => []
  | 0, s => s
  | fuel + 1, c :: rest =>
    if pat.isPrefixOf (c :: rest) && decide (0 < pat.length) then
      removeOccsAux pat fuel ((c :: rest).drop pat.length)
    else
      c :: removeOccsAux pat fuel rest

/-- Entry point of the replace-all helper: fuel is the string length, enough
because every step consumes at least one character. -/
def removeOccs (pat s : List Char) : List Char :=
  removeOccsAux pat s.length s

/-- Python str.strip(): drop leading and trailing whitespace. -/
def stripChars (s : List Char) : List Char :=
  ((s.dropWhile Char.isWhitespace).reverse.dropWhile Char.isWhitespace).reverse

/-- The hardcoded dev token of main.py line 103. -/
def devToken : List Char :=
  "hardcoded-dev-token-for-deployment".toList

/-- Result of the require_token dependency: whether the request was accepted,
and whether decode_token was invoked while deciding. -/
structure TokenCheckResult where
  ok : Bool
  decodeInvoked : Bool
deriving DecidableEq, Repr

/-- require_token (main.py lines 97-109).  decode abstracts the external
decode_token collaborator from auth_utils: true when it returns normally,
false when it raises.  The header must start with "Bearer "; the token is
the header with every "Bearer " occurrence removed and then stripped; the
hardcoded dev token is accepted before decode_token is consulted. -/
def require_token (decode : List Char → Bool) (authorization : List Char) :
    TokenCheckResult :=
  if !("Bearer ".toList.isPrefixOf authorization) then
    ⟨false, false⟩
  else
    let token := stripChars (removeOccs "Bearer ".toList authorization)
    if token = devToken then ⟨true, false⟩
    else if decode token then ⟨true, true⟩
    else ⟨false, true⟩

/-- The collaborators a request handler touches.  modelExists is
MODEL_PATH.exists(); loadOk is whether joblib.load returns normally.  pre
stands for preprocess_data of model/preprocessing.py, whose source file is
not included here, so it is kept abstract; its spec contract is the
definition PreContract below.  predict, predictProba and classes are the
opaque trained pipeline artifact (predict, predict_proba, classes_), with
None modelling a raised exception.  commitOk is whether db.commit() returns
normally, and idGen stands for the uuid4 draw for each new row. -/
structure Env where
  modelExists : Bool
  loadOk : Bool
  pre : List ModelRow → Option (List (List ℚ))
  predict : List (List ℚ) → Option (List Int)
  predictProba : List (List ℚ) → Option (List (List ℚ))
  classes : List Int
  commitOk : Bool
  idGen : Nat → String

/-- Modelled from the spec: the Feature Preprocessor contract of §4.1 for
preprocess_data (model/preprocessing.py, source not included): whenever it
succeeds, the output matrix has exactly one row per input row, row i of the
output corresponding to row i of the input. -/
def PreContract (pre : List ModelRow → Option (List (List ℚ))) : Prop :=
  ∀ rows m, pre rows = some m → m.length = rows.length

/-- The model-artifact collaborator contract of spec §6: predict and
predict_proba return one entry per input row when they return at all. -/
def PipelineContract (env : Env) : Prop :=
  (∀ m ls, env.predict m = some ls → ls.length = m.length) ∧
  (∀ m ps, env.predictProba m = some ps → ps.length = m.length)

/-- The branches of the predict_fraud handler, one per HTTPException site
plus the success return. -/
inductive PredictOutcome where
  | success (resp : PredictionResponse)
  | modelNotFound
  | loadFailed
  | invalidTimestamp
  | preprocessingFailed
  | predictionFailed
deriving DecidableEq, Repr

/-- HTTP status attached to each predict_fraud branch (main.py lines
216-298). -/
def predict_status : PredictOutcome → Nat
  | .success _ => 200
  | .modelNotFound => 500
  | .loadFailed => 500
  | .invalidTimestamp => 400
  | .preprocessingFailed => 500
  | .predictionFailed => 500

/-- The part of the predict_fraud handler after the joblib.load call (main.py
lines 221-298).  The pipeline is run on the one-row frame
df_processed.iloc[[-1]] (the last processed row); an empty prediction or
probability result models the IndexError of [0]-indexing and lands in the
same except branch as a raising pipeline. -/
def predict_body (env : Env) (store : List StoredTxn) (txn : PredictionRequest) :
    PredictOutcome :=
  if !env.loadOk then .loadFailed
  else
    match txn.timestamp with
    | none => .invalidTimestamp
    | some ts =>
      match env.pre (assembled_window store txn ts) with
      | none => .preprocessingFailed
      | some dfp =>
        let last_row := dfp.getLast?.getD []
        match env.predict [last_row], env.predictProba [last_row] with
        | some (pred :: _), some (prob0 :: _) =>
          .success ⟨decide (pred ≠ 0), risk_score env.classes prob0, txn_status pred⟩
        | _, _ => .predictionFailed

/-- The /predict handler body, predict_fraud (main.py lines 216-298).  The
second component counts how many times the handler ran joblib.load on the
artifact: 0 when the existence check at line 218 fails, 1 otherwise — line
222 executes the load anew inside every call, there is no cache. -/
def predict_fraud (env : Env) (store : List StoredTxn) (txn : PredictionRequest) :
    PredictOutcome × Nat :=
  if !env.modelExists then (.modelNotFound, 0)
  else (predict_body env store txn, 1)

/-- One parsed CSV data row of the upload (pandas typing is out of scope:
rows are modelled already well-typed). -/
structure CsvRow where
  Timestamp : Int
  UserID : String
  Amount : ℚ
  City : String
  Category : String
deriving DecidableEq, Repr

/-- The parsed CSV: its header column names and its data rows. -/
structure CsvFrame where
  cols : List String
  rows : List CsvRow
deriving DecidableEq, Repr

/-- required_cols of upload_csv line 320. -/
def required_cols : List String :=
  ["Timestamp", "UserID", "Amount", "City", "Category"]

/-- missing = [c for c in required_cols if c not in df.columns] (line 321). -/
def missing_cols (frame : CsvFrame) : List String :=
  required_cols.filter fun c => !(frame.cols.contains c)

/-- An upload row extended with the Fraud_Type=0 default column (lines
329-330) as seen by preprocess_data. -/
def toUploadRow (r : CsvRow) : ModelRow :=
  ⟨r.Timestamp, r.UserID, r.Amount, r.City, r.Category, 0⟩

/-- file.filename.endswith(".csv") (line 303). -/
def is_csv_name (fname : List Char) : Bool :=
  ".csv".toList.isSuffixOf fname

/-- The branches of the upload_csv handler, one per HTTPException site plus
the success return; unauthorized is the 401 raised by the require_token
dependency before the body runs. -/
inductive UploadOutcome where
  | success (rowsProcessed : Nat)
  | unauthorized
  | badFilename
  | modelNotFound
  | loadFailed
  | csvUnreadable
  | missingColumns (missing : List String)
  | preprocessingFailed
  | predictionFailed
  | dbError
deriving DecidableEq, Repr

/-- HTTP status attached to each upload_csv branch (main.py lines 301-374).
Note the missing-model branch of this handler raises status 400 (line 307),
unlike the corresponding branch of predict_fraud which raises 500. -/
def upload_status : UploadOutcome → Nat
  | .success _ => 200
  | .unauthorized => 401
  | .badFilename => 400
  | .modelNotFound => 400
  | .loadFailed => 500
  | .csvUnreadable => 400
  | .missingColumns _ => 400
  | .preprocessingFailed => 500
  | .predictionFailed => 500
  | .dbError => 500

/-- Default row used only to make df.iloc[i] total in the embedding; under
the row-count contracts every access stays in range and the default is never
read. -/
def dRow : CsvRow :=
  ⟨0, "", 0, "", ""⟩

/-- Default stored transaction, same role as dRow. -/
def dTxn : StoredTxn :=
  ⟨"", 0, 0, "", "", "", 0, "", false⟩

/-- The TransactionModel row built for input row i of the upload loop
(main.py lines 345-364): label and probability row i, risk int-truncated,
identity fields copied from df.iloc[i]. -/
def build_txn (env : Env) (frame : CsvFrame) (preds : List Int)
    (probs : List (List ℚ)) (i : Nat) : StoredTxn :=
  { id := env.idGen i
    timestamp := (frame.rows.getD i dRow).Timestamp
    amount := (frame.rows.getD i dRow).Amount
    user_id := (frame.rows.getD i dRow).UserID
    city := (frame.rows.getD i dRow).City
    category := (frame.rows.getD i dRow).Category
    risk_score := py_int (upload_fraud_prob env.classes (probs.getD i []) * 100)
    status := txn_status (preds.getD i 0)
    is_training_data := false }

/-- new_txns of the upload loop: one stored row per element of preds, in
order (for i, pred in enumerate(preds)). -/
def new_txns (env : Env) (frame : CsvFrame) (preds : List Int)
    (probs : List (List ℚ)) : List StoredTxn :=
  (List.range preds.length).map (build_txn env frame preds probs)

/-- The /upload handler body, upload_csv (main.py lines 301-374), returning
the outcome branch and the resulting storage state.  csv is the result of
pd.read_csv: none when it raises.  db.add_all plus db.commit either appends
every new row (commit returns) or, after the except-branch rollback, leaves
storage exactly as it was. -/
def upload_csv (env : Env) (store : List StoredTxn) (fname : List Char)
    (csv : Option CsvFrame) : UploadOutcome × List StoredTxn :=
  if !(is_csv_name fname) then (.badFilename, store)
  else if !env.modelExists then (.modelNotFound, store)
  else if !env.loadOk then (.loadFailed, store)
  else
    match csv with
    | none => (.csvUnreadable, store)
    | some frame =>
      if missing_cols frame ≠ [] then (.missingColumns (missing_cols frame), store)
      else
        match env.pre (frame.rows.map toUploadRow) with
        | none => (.preprocessingFailed, store)
        | some dfp =>
          match env.predict dfp, env.predictProba dfp with
          | some preds, some probs =>
            let txns := new_txns env frame preds probs
            if env.commitOk then (.success txns.length, store ++ txns)
            else (.dbError, store)
          | _, _ => (.predictionFailed, store)

/-- The /predict route as exposed over HTTP (main.py lines 216-217): its
dependency list holds only get_db — require_token is absent, so the handler
body runs whatever the Authorization header and decode_token say. -/
def predict_route (env : Env) (store : List StoredTxn) (decode : List Char → Bool)
    (auth : List Char) (txn : PredictionRequest) : PredictOutcome × Nat :=
  predict_fraud env store txn

/-- The /upload route as exposed over HTTP (main.py line 302): the
require_token dependency runs first and a failed check raises 401 before the
handler body. -/
def upload_route (env : Env) (store : List StoredTxn) (decode : List Char → Bool)
    (auth : List Char) (fname : List Char) (csv : Option CsvFrame) :
    UploadOutcome × List StoredTxn :=
  if (require_token decode auth).ok then upload_csv env store fname csv
  else (.unauthorized, store)

/-- Total number of joblib.load executions over a sequence of /predict
requests served by one process (the store is held fixed; it does not affect
the load count). -/
def run_predict_requests (env : Env) (store : List StoredTxn) :
    List PredictionRequest → Nat
  | [] => 0
  | t :: rest => (predict_fraud env store t).2 + run_predict_requests env store rest

/-! Basic lemmas about the descending insertion sort that embeds the
order_by(timestamp.desc()) query clause. -/

theorem mem_insertDesc {x r : StoredTxn} {l : List StoredTxn} :
    x ∈ insertDesc r l ↔ x = r ∨ x ∈ l := by
  induction l with
  | nil => simp [insertDesc]
  | cons a as ih =>
    by_cases h : a.timestamp < r.timestamp
    · simp [insertDesc, h]
    · simp [insertDesc, h, ih]
      tauto

theorem mem_sortDesc {x : StoredTxn} {l : List StoredTxn} :
    x ∈ sortDesc l ↔ x ∈ l := by
  induction l with
  | nil => simp [sortDesc]
  | cons a as ih => simp [sortDesc, mem_insertDesc, ih]

theorem length_insertDesc (r : StoredTxn) (l : List StoredTxn) :
    (insertDesc r l).length = l.length + 1 := by
  induction l with
  | nil => simp [insertDesc]
  | cons a as ih =>
    by_cases h : a.timestamp < r.timestamp
    · simp [insertDesc, h]
    · simp [insertDesc, h, ih]

theorem length_sortDesc (l : List StoredTxn) : (sortDesc l).length = l.length := by
  induction l with
  | nil => rfl
  | cons a as ih => simp [sortDesc, length_insertDesc, ih]

theorem sorted_insertDesc {r : StoredTxn} {l : List StoredTxn}
    (h : l.Pairwise fun a b => b.timestamp ≤ a.timestamp) :
    (insertDesc r l).Pairwise fun a b => b.timestamp ≤ a.timestamp := by
  induction l with
  | nil => simp [insertDesc]
  | cons a as ih =>
    rcases List.pairwise_cons.mp h with ⟨ha, has⟩
    by_cases hc : a.timestamp < r.timestamp
    · rw [insertDesc, if_pos hc]
      refine List.pairwise_cons.mpr ⟨?_, h⟩
      intro b hb
      rcases List.mem_cons.mp hb with hb | hb
      · exact hb ▸ le_of_lt hc
      · exact le_trans (ha b hb) (le_of_lt hc)
    · rw [insertDesc, if_neg hc]
      refine List.pairwise_cons.mpr ⟨?_, ih has⟩
      intro b hb
      rcases mem_insertDesc.mp hb with hb | hb
      · exact hb ▸ not_lt.mp hc
      · exact ha b hb

theorem sorted_sortDesc (l : List StoredTxn) :
    (sortDesc l).Pairwise fun a b => b.timestamp ≤ a.timestamp := by
  induction l with
  | nil => simp [sortDesc]
  | cons a as ih => exact sorted_insertDesc ih

theorem history_rows_mem {store : List StoredTxn} {uid : String} {before : Int}
    {r : StoredTxn} (h : r ∈ history_rows store uid before) :
    r ∈ store ∧ r.user_id = uid ∧ r.timestamp < before := by
  have h1 : r ∈ sortDesc (store.filter fun s => s.user_id == uid && decide (s.timestamp < before)) :=
    (List.take_subset _ _) h
  have h2 := mem_sortDesc.mp h1
  rcases List.mem_filter.mp h2 with ⟨hs, hp⟩
  rcases (Bool.and_eq_true _ _).mp hp with ⟨hu, ht⟩
  exact ⟨hs, by simpa using hu, by simpa using ht⟩

theorem history_rows_length (store : List StoredTxn) (uid : String) (before : Int) :
    (history_rows store uid before).length ≤ 50 := by
  simp [history_rows]

theorem history_rows_sorted (store : List StoredTxn) (uid : String) (before : Int) :
    (history_rows store uid before).Pairwise fun a b => b.timestamp ≤ a.timestamp :=
  (sorted_sortDesc _).sublist (List.take_sublist 50 _)

/-! Concrete fixtures used by counterexamples and witnesses. -/

/-- A fully healthy environment: artifact present and loadable, a
preprocessor mapping every row to an empty feature row, a pipeline labelling
every row 1 with class probabilities (0.3, 0.7) over classes_ = [0, 1], and
a committing database. -/
def envOK : Env :=
  { modelExists := true
    loadOk := true
    pre := fun rows => some (rows.map fun _ => [])
    predict := fun m => some (m.map fun _ => 1)
    predictProba := fun m => some (m.map fun _ => [(3 : ℚ)/10, 7/10])
    classes := [0, 1]
    commitOk := true
    idGen := fun i => "row" ++ toString i }

/-- envOK with the artifact file absent. -/
def envNoModel : Env :=
  { envOK with modelExists := false }

/-- A single /predict request with a parseable timestamp. -/
def txn0 : PredictionRequest :=
  ⟨some 10, 25, "u1", "Paris", "food"⟩

/-- A one-row CSV frame carrying all required columns. -/
def okFrame : CsvFrame :=
  ⟨["Timestamp", "UserID", "Amount", "City", "Category"],
   [⟨3, "u1", 12, "Lyon", "food"⟩]⟩

/-- A CSV frame whose header lacks the City column. -/
def noCityFrame : CsvFrame :=
  ⟨["Timestamp", "UserID", "Amount", "Category"],
   [⟨3, "u1", 12, "Lyon", "food"⟩]⟩

/-- An upload filename passing the .csv suffix check. -/
def uploadName : List Char :=
  "batch.csv".toList

/-- Two stored transactions of user u1, timestamps 1 and 2. -/
def histStore : List StoredTxn :=
  [⟨"a", 1, 5, "u1", "Nice", "food", 0, "Safe", false⟩,
   ⟨"b", 2, 6, "u1", "Oslo", "food", 0, "Safe", false⟩]

/-! Claim theorems. -/

/-- C1: the Risk Mapper (shared by predict_fraud lines 280-289 and the
upload loop lines 340-352) sets fraud_probability to one minus the
probability at the index of class label 0, risk_score to fraud_probability
times 100, and status to Suspicious exactly when the label is nonzero; at
the corner points it yields risk 0 for a certain normal class and risk 100
for an impossible one. -/
theorem C1_risk_mapper (classes : List Int) (probs : List ℚ) (label : Int)
    (h0 : (0 : Int) ∈ classes) :
    fraud_prob classes probs = 1 - probs.getD (normal_index classes) 0 ∧
    risk_score classes probs = (1 - probs.getD (normal_index classes) 0) * 100 ∧
    upload_fraud_prob classes probs = fraud_prob classes probs ∧
    (txn_status label = "Suspicious" ↔ label ≠ 0) ∧
    (txn_status label = "Safe" ↔ label = 0) ∧
    (probs.getD (normal_index classes) 0 = 1 → risk_score classes probs = 0) ∧
    (label = 0 → txn_status label = "Safe") ∧
    (probs.getD (normal_index classes) 0 = 0 → risk_score classes probs = 100) ∧
    (label ≠ 0 → txn_status label = "Suspicious") := by
  have hidx : upload_normal_idx classes = (normal_index classes : Int) := by
    simp [upload_normal_idx, h0]
  have hne : upload_normal_idx classes ≠ -1 := by
    rw [hidx]; omega
  refine ⟨by simp [fraud_prob, h0], by simp [risk_score, fraud_prob, h0], ?_, ?_, ?_, ?_, ?_, ?_, ?_⟩
  · simp [upload_fraud_prob, hne, hidx, fraud_prob, h0]
  · by_cases hl : label = 0 <;> simp [txn_status, hl]
  · by_cases hl : label = 0 <;> simp [txn_status, hl]
  · intro hp
    simp only [risk_score, fraud_prob, if_pos h0, hp]
    ring
  · intro hl; simp [txn_status, hl]
  · intro hp
    simp only [risk_score, fraud_prob, if_pos h0, hp]
    ring
  · intro hl; simp [txn_status, hl]

/-- Witness for C1 at classes [0, 1], probabilities (0.3, 0.7), label 1. -/
theorem C1_risk_mapper_witness :
    (0 : Int) ∈ [(0 : Int), 1] ∧
    (fraud_prob [0, 1] [(3 : ℚ)/10, 7/10] =
        1 - [(3 : ℚ)/10, 7/10].getD (normal_index [0, 1]) 0 ∧
      risk_score [0, 1] [(3 : ℚ)/10, 7/10] =
        (1 - [(3 : ℚ)/10, 7/10].getD (normal_index [0, 1]) 0) * 100 ∧
      upload_fraud_prob [0, 1] [(3 : ℚ)/10, 7/10] = fraud_prob [0, 1] [(3 : ℚ)/10, 7/10] ∧
      (txn_status 1 = "Suspicious" ↔ (1 : Int) ≠ 0) ∧
      (txn_status 1 = "Safe" ↔ (1 : Int) = 0) ∧
      ([(3 : ℚ)/10, 7/10].getD (normal_index [0, 1]) 0 = 1 →
        risk_score [0, 1] [(3 : ℚ)/10, 7/10] = 0) ∧
      ((1 : Int) = 0 → txn_status 1 = "Safe") ∧
      ([(3 : ℚ)/10, 7/10].getD (normal_index [0, 1]) 0 = 0 →
        risk_score [0, 1] [(3 : ℚ)/10, 7/10] = 100) ∧
      ((1 : Int) ≠ 0 → txn_status 1 = "Suspicious")) :=
  ⟨by decide, C1_risk_mapper [0, 1] [(3 : ℚ)/10, 7/10] 1 (by decide)⟩

/-- C3: when label 0 is absent from classes_, both the predict and the
upload risk mappers fall back to fraud probability 1, hence risk 100,
whatever the probability vector holds. -/
theorem C3_no_normal_class (classes : List Int) (probs : List ℚ)
    (h : (0 : Int) ∉ classes) :
    fraud_prob classes probs = 1 ∧
    upload_fraud_prob classes probs = 1 ∧
    risk_score classes probs = 100 := by
  refine ⟨by simp [fraud_prob, h], ?_, by simp [risk_score, fraud_prob, h]⟩
  simp [upload_fraud_prob, upload_normal_idx, h]

/-- Witness for C3 at classes [1, 2] and a nonzero probability vector. -/
theorem C3_no_normal_class_witness :
    (0 : Int) ∉ [(1 : Int), 2] ∧
    (fraud_prob [1, 2] [(9 : ℚ)/10, 1/10] = 1 ∧
      upload_fraud_prob [1, 2] [(9 : ℚ)/10, 1/10] = 1 ∧
      risk_score [1, 2] [(9 : ℚ)/10, 1/10] = 100) :=
  ⟨by decide, C3_no_normal_class [1, 2] [(9 : ℚ)/10, 1/10] (by decide)⟩

/-- C10: require_token accepts the literal dev token before ever consulting
decode_token: whatever the decoder would say, the check succeeds and the
decoder is not invoked. -/
theorem C10_dev_token_bypass (decode : List Char → Bool) :
    require_token decode ("Bearer hardcoded-dev-token-for-deployment".toList) =
      ⟨true, false⟩ :=
  rfl

/-- Witness for C10 with a decoder that rejects every token: the dev token
is still accepted and the decoder stays uninvoked. -/
theorem C10_dev_token_bypass_witness :
    require_token (fun _ => false)
        ("Bearer hardcoded-dev-token-for-deployment".toList) =
      ⟨true, false⟩ :=
  C10_dev_token_bypass (fun _ => false)

/-- C2 counterexample: for a user with stored transactions at timestamps 1
and 2 and a new transaction at timestamp 10, the window handed to the
Preprocessor carries timestamps (2, 1, 10): the descending query order is
kept as is, never reversed into ascending order, so the claimed ascending
ordering fails. -/
theorem C2_counterexample :
    (assembled_window histStore txn0 10).map ModelRow.Timestamp = [2, 1, 10] ∧
    ¬ ((assembled_window histStore txn0 10).map ModelRow.Timestamp).Pairwise (· ≤ ·) := by
  decide

/-- C2 amended: the window fed to the Preprocessor holds at most 50 of the
stored transactions of this user strictly before the new timestamp, kept in
the descending order of the query (newest first, no reversal), with the new
transaction as the last element. -/
theorem C2_amended_window (store : List StoredTxn) (txn : PredictionRequest) (ts : Int) :
    (assembled_window store txn ts).getLast? = some (currentRow ts txn) ∧
    (assembled_window store txn ts).dropLast.length ≤ 50 ∧
    (∀ r ∈ (assembled_window store txn ts).dropLast,
      ∃ s ∈ store, s.user_id = txn.user_id ∧ s.timestamp < ts ∧ toModelRow s = r) ∧
    ((assembled_window store txn ts).dropLast.map ModelRow.Timestamp).Pairwise
      (fun a b => b ≤ a) := by
  have hd : (assembled_window store txn ts).dropLast =
      (history_rows store txn.user_id ts).map toModelRow := by
    rw [assembled_window, List.dropLast_concat]
  refine ⟨?_, ?_, ?_, ?_⟩
  · rw [assembled_window, List.getLast?_concat]
  · rw [hd, List.length_map]
    exact history_rows_length store txn.user_id ts
  · rw [hd]
    intro r hr
    rcases List.mem_map.mp hr with ⟨s, hs, rfl⟩
    rcases history_rows_mem hs with ⟨h1, h2, h3⟩
    exact ⟨s, h1, h2, h3, rfl⟩
  · rw [hd, List.map_map, List.pairwise_map]
    exact history_rows_sorted store txn.user_id ts

/-- Witness for C2 amended at the two-transaction store and the timestamp-10
request. -/
theorem C2_amended_window_witness :
    (assembled_window histStore txn0 10).getLast? = some (currentRow 10 txn0) ∧
    (assembled_window histStore txn0 10).dropLast.length ≤ 50 ∧
    (∀ r ∈ (assembled_window histStore txn0 10).dropLast,
      ∃ s ∈ histStore, s.user_id = txn0.user_id ∧ s.timestamp < 10 ∧ toModelRow s = r) ∧
    ((assembled_window histStore txn0 10).dropLast.map ModelRow.Timestamp).Pairwise
      (fun a b => b ≤ a) :=
  C2_amended_window histStore txn0 10

/-- C5: when any required column is absent, upload_csv stops with the
missing-columns error (HTTP 400) that lists exactly the required columns not
present in the header, storage is untouched, and this holds whatever the
preprocessor, the model and the database would have done — no row is scored
or persisted. -/
theorem C5_missing_columns (env : Env) (store : List StoredTxn) (fname : List Char)
    (frame : CsvFrame)
    (hname : is_csv_name fname = true)
    (hm : env.modelExists = true) (hl : env.loadOk = true)
    (hmiss : missing_cols frame ≠ []) :
    upload_csv env store fname (some frame) =
      (.missingColumns (missing_cols frame), store) ∧
    upload_status (upload_csv env store fname (some frame)).1 = 400 ∧
    (∀ c ∈ required_cols, c ∈ missing_cols frame ↔ c ∉ frame.cols) := by
  have hu : upload_csv env store fname (some frame) =
      (.missingColumns (missing_cols frame), store) := by
    simp [upload_csv, hname, hm, hl, hmiss]
  refine ⟨hu, ?_, ?_⟩
  · rw [hu]
    rfl
  · intro c hc
    simp [missing_cols, List.mem_filter, hc]


/-- Witness for C5: a frame lacking the City column is rejected with City
in the missing list and nothing is persisted. -/
theorem C5_missing_columns_witness :
    (is_csv_name uploadName = true ∧ envOK.modelExists = true ∧
      envOK.loadOk = true ∧ missing_cols noCityFrame ≠ []) ∧
    (upload_csv envOK [] uploadName (some noCityFrame) =
        (.missingColumns (missing_cols noCityFrame), []) ∧
      upload_status (upload_csv envOK [] uploadName (some noCityFrame)).1 = 400 ∧
      (∀ c ∈ required_cols, c ∈ missing_cols noCityFrame ↔ c ∉ noCityFrame.cols)) :=
  ⟨⟨by decide, rfl, rfl, by decide⟩,
   C5_missing_columns envOK [] uploadName noCityFrame (by decide) rfl rfl (by decide)⟩

/-- C6: the code contradicts the claim: a request with an empty
Authorization header is rejected by require_token, and the /upload route
indeed answers it with 401, yet the /predict route — whose dependency list
lacks require_token — serves that same unauthenticated caller a full
prediction. -/
theorem C6_predict_skips_auth :
    (require_token (fun _ => false) []).ok = false ∧
    (predict_route envOK [] (fun _ => false) [] txn0).1 =
      .success ⟨true, 70, "Suspicious"⟩ ∧
    (upload_route envOK [] (fun _ => false) [] uploadName (some okFrame)).1 =
      .unauthorized := by
  have h70 : risk_score envOK.classes [(3 : ℚ)/10, 7/10] = 70 := by
    have hf : fraud_prob envOK.classes [(3 : ℚ)/10, 7/10] = 7/10 := by
      norm_num [fraud_prob, normal_index, envOK]
    rw [risk_score, hf]
    norm_num
  refine ⟨by decide, ?_, by decide⟩
  have hstep : (predict_route envOK [] (fun _ => false) [] txn0).1 =
      .success ⟨true, risk_score envOK.classes [(3 : ℚ)/10, 7/10], "Suspicious"⟩ := rfl
  rw [hstep, h70]

/-- C7 counterexample: two /predict requests in one process deserialize the
artifact twice — the claimed at-most-once bound fails already at the second
request. -/
theorem C7_counterexample :
    run_predict_requests envOK [] [txn0, txn0] = 2 ∧
    ¬ run_predict_requests envOK [] [txn0, txn0] ≤ 1 := by
  decide

/-- C7 amended: the handler runs joblib.load anew on every request that
passes the existence check: over any sequence of /predict requests the
number of artifact loads equals the number of requests — nothing is cached
across requests. -/
theorem C7_load_per_request (env : Env) (store : List StoredTxn)
    (reqs : List PredictionRequest) (hm : env.modelExists = true) :
    run_predict_requests env store reqs = reqs.length := by
  induction reqs with
  | nil => rfl
  | cons t rest ih =>
    simp [run_predict_requests, predict_fraud, hm, ih]
    omega

/-- Witness for C7 amended: one request, one load. -/
theorem C7_load_per_request_witness :
    envOK.modelExists = true ∧
    run_predict_requests envOK [] [txn0] = [txn0].length :=
  ⟨rfl, C7_load_per_request envOK [] [txn0] rfl⟩

/-- C8 counterexample: an upload attempted while the artifact file is
missing fails with the model-not-found branch whose HTTP status is 400 — a
client-error code, not the claimed 5xx-equivalent — though indeed nothing is
persisted. -/
theorem C8_counterexample :
    (upload_csv envNoModel [] uploadName (some okFrame)).1 = .modelNotFound ∧
    upload_status (upload_csv envNoModel [] uploadName (some okFrame)).1 = 400 ∧
    ¬ 500 ≤ upload_status (upload_csv envNoModel [] uploadName (some okFrame)).1 ∧
    (upload_csv envNoModel [] uploadName (some okFrame)).2 = [] := by
  decide

/-- C8 amended: a missing artifact or a failing deserialization always
aborts both handlers before any prediction or persistence, storage is left
untouched; /predict reports 500 in both cases and /upload reports 500 for a
failed load but 400 — not a 5xx — for a missing artifact file. -/
theorem C8_model_unavailable (env : Env) (store : List StoredTxn)
    (txn : PredictionRequest) (fname : List Char) (csv : Option CsvFrame)
    (hname : is_csv_name fname = true) :
    (env.modelExists = false →
      predict_fraud env store txn = (.modelNotFound, 0) ∧
      upload_csv env store fname csv = (.modelNotFound, store) ∧
      predict_status .modelNotFound = 500 ∧
      upload_status .modelNotFound = 400) ∧
    (env.modelExists = true → env.loadOk = false →
      predict_fraud env store txn = (.loadFailed, 1) ∧
      upload_csv env store fname csv = (.loadFailed, store) ∧
      predict_status .loadFailed = 500 ∧
      upload_status .loadFailed = 500) := by
  constructor
  · intro hm
    exact ⟨by simp [predict_fraud, hm], by simp [upload_csv, hname, hm], rfl, rfl⟩
  · intro hm hl
    exact ⟨by simp [predict_fraud, predict_body, hm, hl],
      by simp [upload_csv, hname, hm, hl], rfl, rfl⟩

/-- Witness for C8 amended at the missing-artifact environment. -/
theorem C8_model_unavailable_witness :
    is_csv_name uploadName = true ∧
    ((envNoModel.modelExists = false →
      predict_fraud envNoModel [] txn0 = (.modelNotFound, 0) ∧
      upload_csv envNoModel [] uploadName (some okFrame) = (.modelNotFound, []) ∧
      predict_status .modelNotFound = 500 ∧
      upload_status .modelNotFound = 400) ∧
    (envNoModel.modelExists = true → envNoModel.loadOk = false →
      predict_fraud envNoModel [] txn0 = (.loadFailed, 1) ∧
      upload_csv envNoModel [] uploadName (some okFrame) = (.loadFailed, []) ∧
      predict_status .loadFailed = 500 ∧
      upload_status .loadFailed = 500)) :=
  ⟨by decide, C8_model_unavailable envNoModel [] txn0 uploadName (some okFrame) (by decide)⟩

/-- C4: a valid batch of N rows yields exactly N stored transactions, the
i-th built from the i-th input row (same order), and persistence is
all-or-nothing: when the commit returns, storage is the old content plus
all N new rows; when the commit raises, the rollback leaves storage exactly
as before. -/
theorem C4_batch_atomic (env : Env) (store : List StoredTxn) (fname : List Char)
    (frame : CsvFrame) (dfp : List (List ℚ)) (preds : List Int)
    (probs : List (List ℚ))
    (hname : is_csv_name fname = true)
    (hm : env.modelExists = true) (hl : env.loadOk = true)
    (hcols : missing_cols frame = [])
    (hprec : PreContract env.pre)
    (hpipe : PipelineContract env)
    (hpre : env.pre (frame.rows.map toUploadRow) = some dfp)
    (hpred : env.predict dfp = some preds)
    (hproba : env.predictProba dfp = some probs) :
    preds.length = frame.rows.length ∧
    (new_txns env frame preds probs).length = frame.rows.length ∧
    (∀ i, i < frame.rows.length →
      ((new_txns env frame preds probs).getD i dTxn).timestamp =
          (frame.rows.getD i dRow).Timestamp ∧
      ((new_txns env frame preds probs).getD i dTxn).amount =
          (frame.rows.getD i dRow).Amount ∧
      ((new_txns env frame preds probs).getD i dTxn).user_id =
          (frame.rows.getD i dRow).UserID ∧
      ((new_txns env frame preds probs).getD i dTxn).city =
          (frame.rows.getD i dRow).City ∧
      ((new_txns env frame preds probs).getD i dTxn).category =
          (frame.rows.getD i dRow).Category ∧
      ((new_txns env frame preds probs).getD i dTxn).status =
          txn_status (preds.getD i 0)) ∧
    (env.commitOk = true →
      upload_csv env store fname (some frame) =
        (.success frame.rows.length, store ++ new_txns env frame preds probs)) ∧
    (env.commitOk = false →
      upload_csv env store fname (some frame) = (.dbError, store)) := by
  have hdfp : dfp.length = frame.rows.length := by
    have := hprec _ _ hpre
    simpa using this
  have hN : preds.length = frame.rows.length := by
    rw [hpipe.1 _ _ hpred, hdfp]
  have hNt : (new_txns env frame preds probs).length = frame.rows.length := by
    simp [new_txns, hN]
  have hget : ∀ i, i < preds.length →
      (new_txns env frame preds probs).getD i dTxn =
        build_txn env frame preds probs i := by
    intro i hi
    rw [new_txns, List.getD_eq_getElem?_getD, List.getElem?_map, List.getElem?_range hi]
    rfl
  refine ⟨hN, hNt, ?_, ?_, ?_⟩
  · intro i hi
    rw [hget i (hN ▸ hi)]
    exact ⟨rfl, rfl, rfl, rfl, rfl, rfl⟩
  · intro hc
    simp [upload_csv, hname, hm, hl, hcols, hpre, hpred, hproba, hc, hNt]
  · intro hc
    simp [upload_csv, hname, hm, hl, hcols, hpre, hpred, hproba, hc]

/-- Witness for C4 at a one-row batch in the healthy environment. -/
theorem C4_batch_atomic_witness :
    ([1] : List Int).length = okFrame.rows.length ∧
    (new_txns envOK okFrame [1] [[(3 : ℚ)/10, 7/10]]).length = okFrame.rows.length ∧
    (∀ i, i < okFrame.rows.length →
      ((new_txns envOK okFrame [1] [[(3 : ℚ)/10, 7/10]]).getD i dTxn).timestamp =
          (okFrame.rows.getD i dRow).Timestamp ∧
      ((new_txns envOK okFrame [1] [[(3 : ℚ)/10, 7/10]]).getD i dTxn).amount =
          (okFrame.rows.getD i dRow).Amount ∧
      ((new_txns envOK okFrame [1] [[(3 : ℚ)/10, 7/10]]).getD i dTxn).user_id =
          (okFrame.rows.getD i dRow).UserID ∧
      ((new_txns envOK okFrame [1] [[(3 : ℚ)/10, 7/10]]).getD i dTxn).city =
          (okFrame.rows.getD i dRow).City ∧
      ((new_txns envOK okFrame [1] [[(3 : ℚ)/10, 7/10]]).getD i dTxn).category =
          (okFrame.rows.getD i dRow).Category ∧
      ((new_txns envOK okFrame [1] [[(3 : ℚ)/10, 7/10]]).getD i dTxn).status =
          txn_status (([1] : List Int).getD i 0)) ∧
    (envOK.commitOk = true →
      upload_csv envOK [] uploadName (some okFrame) =
        (.success okFrame.rows.length,
          [] ++ new_txns envOK okFrame [1] [[(3 : ℚ)/10, 7/10]])) ∧
    (envOK.commitOk = false →
      upload_csv envOK [] uploadName (some okFrame) = (.dbError, [])) :=
  C4_batch_atomic envOK [] uploadName okFrame [[]] [1] [[(3 : ℚ)/10, 7/10]]
    (by decide) rfl rfl (by decide)
    (by intro rows m h; cases h; simp)
    ⟨by intro m ls h; cases h; simp, by intro m ps h; cases h; simp⟩
    rfl rfl rfl

/-- C9: a brand-new user with zero stored prior transactions is not an
error: the window fed to the Preprocessor is exactly the one new
transaction, and the handler returns the success response built from the
pipeline output on that window. -/
theorem C9_empty_history (env : Env) (store : List StoredTxn)
    (txn : PredictionRequest) (ts : Int) (m : List (List ℚ)) (pred : Int)
    (lrest : List Int) (prob0 : List ℚ) (prest : List (List ℚ))
    (hm : env.modelExists = true) (hl : env.loadOk = true)
    (hts : txn.timestamp = some ts)
    (hempty : ∀ s ∈ store, ¬ (s.user_id = txn.user_id ∧ s.timestamp < ts))
    (hpre : env.pre [currentRow ts txn] = some m)
    (hpred : env.predict [m.getLast?.getD []] = some (pred :: lrest))
    (hproba : env.predictProba [m.getLast?.getD []] = some (prob0 :: prest)) :
    assembled_window store txn ts = [currentRow ts txn] ∧
    predict_fraud env store txn =
      (.success ⟨decide (pred ≠ 0), risk_score env.classes prob0, txn_status pred⟩, 1) := by
  have hfilter :
      store.filter (fun r => r.user_id == txn.user_id && decide (r.timestamp < ts)) = [] := by
    rw [List.filter_eq_nil_iff]
    intro s hs
    have hn := hempty s hs
    simp only [Bool.and_eq_true, beq_iff_eq, decide_eq_true_eq]
    tauto
  have hw : assembled_window store txn ts = [currentRow ts txn] := by
    simp [assembled_window, history_rows, hfilter, sortDesc]
  refine ⟨hw, ?_⟩
  simp [predict_fraud, predict_body, hm, hl, hts, hw, hpre, hpred, hproba]

/-- Witness for C9: the healthy environment scoring a first-ever
transaction of user u1 over the empty store. -/
theorem C9_empty_history_witness :
    assembled_window [] txn0 10 = [currentRow 10 txn0] ∧
    predict_fraud envOK [] txn0 =
      (.success ⟨decide ((1 : Int) ≠ 0),
        risk_score envOK.classes [(3 : ℚ)/10, 7/10], txn_status 1⟩, 1) :=
  C9_empty_history envOK [] txn0 10 [[]] 1 [] [(3 : ℚ)/10, 7/10] []
    rfl rfl rfl (by simp) rfl rfl rfl

end Anomalyse
